import Mathlib

/-!
# Verification of the video-analytics streaming core

Shallow embedding of the stateful streaming-analytics pipeline:
region deduplication (`FaceDetector._remove_duplicates`), heuristic
activity classification (`ActivityDetector.classify_activity`), movement
speed estimation (`ActivityDetector.calculate_movement_speed`),
sliding-window anomaly detection (`AnomalyDetector`), statistics
aggregation (`StatisticsCollector.get_summary`) and report rendering
(`ReportGenerator`).

Python `float` values are embedded as `ℚ` (the source only ever adds,
subtracts, multiplies, divides and compares them; no claim under study
depends on binary floating-point rounding), `int` values as `ℤ` or `ℕ`,
strings as `String`, and insertion-ordered `dict`/`Counter` objects as
association lists in first-insertion order.
-/

namespace VideoAnalysis

/-- One MediaPipe pose landmark: a normalized 2-D position.
(`z` and `visibility` are never read by the analyzed code.) -/
structure Landmark where
  x : ℚ
  y : ℚ
  deriving DecidableEq, Repr

/-- The pose landmarks read by `ActivityDetector.classify_activity` and
`calculate_movement_speed` (`activity_detector.py` lines 89-101). The
source also reads ankles and nose into locals it never uses; they are
carried here for completeness. -/
structure PoseLandmarks where
  left_shoulder : Landmark
  right_shoulder : Landmark
  left_elbow : Landmark
  right_elbow : Landmark
  left_wrist : Landmark
  right_wrist : Landmark
  left_hip : Landmark
  right_hip : Landmark
  left_knee : Landmark
  right_knee : Landmark
  left_ankle : Landmark
  right_ankle : Landmark
  nose : Landmark
  deriving DecidableEq, Repr

/-- Embeds `self.history_size` from `ActivityDetector.__init__`. -/
def history_size : ℕ := 10

/-- The history update at `activity_detector.py` lines 144-147:
`self.pose_history.append(x)` followed by `self.pose_history.pop(0)`
once the length exceeds `history_size`.

The entries of `pose_history` are embedded as `ℚ`: the only statement in
the program that ever writes to `pose_history` is the append at line 145,
whose argument is the scalar hip-centroid x-coordinate
`(left_hip.x + right_hip.x) / 2`. -/
def pushHistory (hist : List ℚ) (x : ℚ) : List ℚ :=
  let h := hist ++ [x]
  if h.length > history_size then h.drop 1 else h

/-- Embeds `ActivityDetector.classify_activity` (`activity_detector.py` lines
75-150), as a function of the optional landmarks and the `pose_history`
field; returns the activity label together with the updated history.
Thresholds appear exactly as in the source: `0.1 = 1/10`,
`0.15 = 3/20`, `0.02 = 1/50`. -/
def classify_activity (landmarks : Option PoseLandmarks) (hist : List ℚ) :
    String × List ℚ :=
  match landmarks with
  | none => ("unknown", hist)
  | some lm =>
    let shoulder_y := (lm.left_shoulder.y + lm.right_shoulder.y) / 2
    let hip_y := (lm.left_hip.y + lm.right_hip.y) / 2
    let knee_y := (lm.left_knee.y + lm.right_knee.y) / 2
    let arms_up := (lm.left_elbow.y < shoulder_y ∧ lm.right_elbow.y < shoulder_y) ∨
                   (lm.left_wrist.y < shoulder_y ∧ lm.right_wrist.y < shoulder_y)
    if arms_up then ("arms_up", hist)
    else
      let left_arm_up := lm.left_wrist.y < lm.left_shoulder.y ∧
                         lm.left_elbow.y < lm.left_shoulder.y
      let right_arm_up := lm.right_wrist.y < lm.right_shoulder.y ∧
                          lm.right_elbow.y < lm.right_shoulder.y
      if (left_arm_up ∧ ¬ right_arm_up) ∨ (right_arm_up ∧ ¬ left_arm_up) then
        ("waving", hist)
      else if knee_y > hip_y + 1/10 ∧ hip_y > shoulder_y + 1/10 then
        ("crouching", hist)
      else if |hip_y - knee_y| < 3/20 then
        ("sitting", hist)
      else if |shoulder_y - hip_y| < 3/20 then
        ("leaning", hist)
      else
        let current_hip_x := (lm.left_hip.x + lm.right_hip.x) / 2
        let walking : Bool :=
          match hist.getLast? with
          | some prev_hip_x => decide (|current_hip_x - prev_hip_x| > 1/50)
          | none => false
        if walking then ("walking", hist)
        else ("standing", pushHistory hist current_hip_x)

/-- Embeds `ActivityDetector.calculate_movement_speed` (`activity_detector.py`
lines 231-259) as a function of the landmarks and the `pose_history`
field. The source reads `prev_center = self.pose_history[-1]` and only
computes a Euclidean distance inside `if isinstance(prev_center, tuple):`.
Since every entry of `pose_history` is the scalar appended by
`classify_activity` (the list's sole write site), that guard is false for
every reachable value, the distance branch is dead code, and each branch
of the source that can execute returns `0.0`. -/
def calculate_movement_speed (landmarks : Option PoseLandmarks)
    (hist : List ℚ) : ℚ :=
  match landmarks, hist.getLast? with
  | none, _ => 0
  | some _, none => 0
  | some _, some _prev_center => 0

/-- The current hip centroid `((left_hip.x + right_hip.x)/2,
(left_hip.y + right_hip.y)/2)` computed at `activity_detector.py`
line 248. -/
def hipCentroid (lm : PoseLandmarks) : ℚ × ℚ :=
  ((lm.left_hip.x + lm.right_hip.x) / 2, (lm.left_hip.y + lm.right_hip.y) / 2)

/-- Modelled from the spec (§4.3 Movement Speed Estimator): the squared
Euclidean distance between the current hip centroid and a previous
centroid. The spec's movement speed is the square root of this value;
the squared form is used only to state that the spec-mandated distance
is nonzero at a concrete input, which it is exactly when this square is
nonzero. -/
def specMovementSq (current prev : ℚ × ℚ) : ℚ :=
  (current.1 - prev.1)^2 + (current.2 - prev.2)^2

/-! ## String formatting (`f"{x:.Nf}"`, `VideoProcessor.format_timestamp`) -/

/-- Rounding to the nearest integer, ties to the even integer
(the rounding used by Python's fixed-point string formatting). -/
def roundHalfEven (x : ℚ) : ℤ :=
  let f := ⌊x⌋
  let r := x - f
  if r > 1/2 then f + 1
  else if r < 1/2 then f
  else if f % 2 = 0 then f else f + 1

/-- Left-pad a string with zeros to the given length. -/
def padLeftZeros (len : ℕ) (s : String) : String :=
  String.mk (List.replicate (len - s.length) '0') ++ s

/-- Python's `f"{q:.prec f}"`: fixed-point rendering of `q` with `prec`
decimal digits, rounding half-to-even. (The source formats binary
doubles; the embedding formats the exact rational. No claim under study
depends on the digits produced, only on the function being a function.) -/
def formatQ (prec : ℕ) (q : ℚ) : String :=
  let n : ℤ := roundHalfEven (q * (10 : ℚ)^prec)
  let neg : Bool := decide (n < 0) || (decide (n = 0) && decide (q < 0))
  let a : ℕ := n.natAbs
  let ip := a / 10^prec
  let fp := a % 10^prec
  (if neg then "-" else "") ++ toString ip ++
    (if prec = 0 then "" else "." ++ padLeftZeros prec (toString fp))

/-- Floor-modulus on ℚ, the semantics of Python's `%` on numbers. -/
def qfmod (a b : ℚ) : ℚ := a - b * ⌊a / b⌋

/-- Embeds `VideoProcessor.format_timestamp` (`video_processor.py` lines 86-99):
`HH:MM:SS`, zero-padded, truncating the sub-second remainder
(`int(seconds // 3600)`, `int((seconds % 3600) // 60)`,
`int(seconds % 60)`; all timestamps in the program are nonnegative, where
`int` truncation coincides with the floor). -/
def format_timestamp (seconds : ℚ) : String :=
  let hours := (⌊seconds / 3600⌋).toNat
  let minutes := (⌊qfmod seconds 3600 / 60⌋).toNat
  let secs := (⌊qfmod seconds 60⌋).toNat
  padLeftZeros 2 (toString hours) ++ ":" ++ padLeftZeros 2 (toString minutes) ++
    ":" ++ padLeftZeros 2 (toString secs)

/-! ## Anomaly detector (`anomaly_detector.py`) -/

/-- One detected anomaly, as built by
`AnomalyDetector.analyze_frame_for_anomalies` and stored by
`StatisticsCollector.add_anomaly`. -/
structure AnomalyEvent where
  frame : ℕ
  timestamp : ℚ
  type : String
  description : String
  deriving DecidableEq, Repr

/-- The constructor arguments of `AnomalyDetector.__init__`
(`sudden_movement_threshold = 3.0`, `pose_confidence_threshold = 0.5`,
`emotion_change_time_threshold = 2.0` by default, matching
`ANOMALY_CONFIG` in `config/settings.py`). -/
structure AnomalyConfig where
  sudden_movement_threshold : ℚ := 3
  pose_confidence_threshold : ℚ := 1/2
  emotion_change_time_threshold : ℚ := 2
  deriving DecidableEq, Repr

/-- The mutable rolling state of `AnomalyDetector` that the analyzed
methods read or write: `self.movement_speeds` (a plain Python list,
appended to on every `detect_sudden_movement` call and never truncated)
and `self.emotion_history['general']` (the single shared emotion FIFO;
the key being absent is embedded as the empty list — the key is created
together with its first entry). The constructor's
`self.movement_history = deque(maxlen=30)` is never written to by any
analyzed method and is omitted. -/
structure AnomalyState where
  movement_speeds : List ℚ := []
  emotion_history : List (ℚ × String) := []
  deriving DecidableEq, Repr

/-- Embeds `AnomalyDetector.detect_sudden_movement` (`anomaly_detector.py` lines
37-60): append the speed, require at least 10 collected samples, then
flag when the mean of the last 30 samples (`np.mean(speeds[-30:])`) is
positive and the current speed exceeds `mean * threshold`. Returns the
flag and the updated `movement_speeds` list. -/
def detect_sudden_movement (thr : ℚ) (movement_speed : ℚ)
    (speeds : List ℚ) : Bool × List ℚ :=
  let speeds' := speeds ++ [movement_speed]
  if speeds'.length < 10 then (false, speeds')
  else
    let window := speeds'.drop (speeds'.length - 30)
    let avg_speed := window.sum / (window.length : ℚ)
    (decide (avg_speed > 0 ∧ movement_speed > avg_speed * thr), speeds')

/-- Embeds `AnomalyDetector.detect_abnormal_pose` (`anomaly_detector.py` lines
62-84): nothing is abnormal without landmarks; otherwise flag exactly
when the caller-supplied confidence is below the configured threshold. -/
def detect_abnormal_pose (thr : ℚ) (landmarks : Option PoseLandmarks)
    (min_confidence : ℚ) : Bool × String :=
  match landmarks with
  | none => (false, "")
  | some _ =>
    if min_confidence < thr then
      (true, "Confiança baixa da pose (" ++ formatQ 2 min_confidence ++ ")")
    else (false, "")

/-- Embeds `AnomalyDetector.detect_rapid_emotion_change` (`anomaly_detector.py`
lines 86-122): append `(timestamp, emotion)` to the shared history, trim
it to the last 10 entries, and flag when the immediately preceding entry
has a different label and lies less than the threshold in the past.
Returns the flag and the updated shared history. -/
def detect_rapid_emotion_change (thr : ℚ) (timestamp : ℚ) (emotion : String)
    (hist : List (ℚ × String)) : Bool × List (ℚ × String) :=
  let h := hist ++ [(timestamp, emotion)]
  let h := if h.length > 10 then h.drop 1 else h
  if h.length < 2 then (false, h)
  else
    match h.reverse with
    | _ :: (prev_timestamp, prev_emotion) :: _ =>
      (decide (prev_emotion ≠ emotion ∧ timestamp - prev_timestamp < thr), h)
    | _ => (false, h)

/-- The `extreme_emotions` list of
`AnomalyDetector.detect_extreme_emotion_sustained`. -/
def extreme_emotions : List String := ["angry", "fear", "disgust"]

/-- The backward scan of `detect_extreme_emotion_sustained`
(`anomaly_detector.py` lines 148-153), applied to the reversed history:
walk entries from the most recent, stop at the first label mismatch, and
keep overwriting `duration` with `current_timestamp - ts` while the label
matches (so the final value measures back to the earliest entry of the
unbroken run, or keeps the accumulator `0` when the run is empty). -/
def sustainLoop (emotion : String) (current_timestamp : ℚ) :
    List (ℚ × String) → ℚ → ℚ
  | [], duration => duration
  | (ts, emo) :: rest, duration =>
    if emo ≠ emotion then duration
    else sustainLoop emotion current_timestamp rest (current_timestamp - ts)

/-- Embeds `AnomalyDetector.detect_extreme_emotion_sustained`
(`anomaly_detector.py` lines 124-155): no flag unless the current emotion
is extreme and the shared history exists (`'general' not in
self.emotion_history` is embedded as the empty list); otherwise flag when
the backward-scan duration reaches the threshold (default `5.0`). -/
def detect_extreme_emotion_sustained (emotion : String)
    (current_timestamp : ℚ) (duration_threshold : ℚ)
    (hist : List (ℚ × String)) : Bool :=
  if emotion ∉ extreme_emotions then false
  else
    match hist with
    | [] => false
    | _ => decide (sustainLoop emotion current_timestamp hist.reverse 0 ≥
                     duration_threshold)

/-- Embeds the per-subject loop of `AnomalyDetector.analyze_frame_for_anomalies`
(`anomaly_detector.py` lines 157-219): sudden-movement check first, then the
abnormal-pose check (only when a pose is present), then for each `(face_key, emotion)` of
`emotions_data` in the caller-supplied order the rapid-emotion-change and
sustained-extreme-emotion checks (the latter reading the history just
updated by the former; the sustained check is called with its default
threshold `5.0`). `emotions_data` entries carry the label
`emotion_info.get('emotion', 'neutral')` directly. Returns the ordered
event list and the updated state.

This step function is the body of the `for face_key, emotion_info in
emotions_data.items():` loop (`anomaly_detector.py` lines 199-217),
threading the accumulated event list and the shared emotion history. -/
def emotionChecksStep (cfg : AnomalyConfig) (frame_number : ℕ)
    (timestamp : ℚ) (acc : List AnomalyEvent × List (ℚ × String))
    (kv : String × String) : List AnomalyEvent × List (ℚ × String) :=
  let emotion := kv.2
  let rapid := detect_rapid_emotion_change cfg.emotion_change_time_threshold
    timestamp emotion acc.2
  let acc1 :=
    if rapid.1 then
      acc.1 ++ [⟨frame_number, timestamp, "rapid_emotion_change",
        "Mudança emocional rápida para " ++ emotion⟩]
    else acc.1
  let acc2 :=
    if detect_extreme_emotion_sustained emotion timestamp 5 rapid.2 then
      acc1 ++ [⟨frame_number, timestamp, "sustained_extreme_emotion",
        "Emoção extrema (" ++ emotion ++ ") sustentada"⟩]
    else acc1
  (acc2, rapid.2)

/-- Embeds `AnomalyDetector.analyze_frame_for_anomalies`
(`anomaly_detector.py` lines 157-219): sudden-movement check first, then the
abnormal-pose check (only when a pose is present), then the per-subject emotion checks
via `emotionChecksStep` in the caller-supplied order. Returns the
ordered event list and the updated state. -/
def analyze_frame_for_anomalies (cfg : AnomalyConfig) (frame_number : ℕ)
    (timestamp : ℚ) (movement_speed : ℚ)
    (pose_landmarks : Option PoseLandmarks) (pose_confidence : ℚ)
    (emotions_data : List (String × String)) (st : AnomalyState) :
    List AnomalyEvent × AnomalyState :=
  let sudden := detect_sudden_movement cfg.sudden_movement_threshold
    movement_speed st.movement_speeds
  let anomalies : List AnomalyEvent :=
    if sudden.1 then
      [⟨frame_number, timestamp, "sudden_movement",
        "Movimento brusco detectado (velocidade: " ++
          formatQ 4 movement_speed ++ ")"⟩]
    else []
  let anomalies := anomalies ++
    (match pose_landmarks with
     | some _ =>
       let ab := detect_abnormal_pose cfg.pose_confidence_threshold
         pose_landmarks pose_confidence
       if ab.1 then
         [⟨frame_number, timestamp, "abnormal_pose",
           "Pose anômala: " ++ ab.2⟩]
       else []
     | none => [])
  let looped := emotions_data.foldl
    (emotionChecksStep cfg frame_number timestamp)
    (anomalies, st.emotion_history)
  (looped.1, ⟨sudden.2, looped.2⟩)

/-! ## Iterated per-frame updates (for the boundedness and temporal claims) -/

/-- The classifier history produced by a sequence of `classify_activity`
calls starting from the empty `pose_history`. -/
def runClassifier (frames : List (Option PoseLandmarks)) : List ℚ :=
  frames.foldl (fun h lm => (classify_activity lm h).2) []

/-- The `movement_speeds` list produced by a sequence of
`detect_sudden_movement` calls starting from the empty list. -/
def runSpeeds (thr : ℚ) (xs : List ℚ) : List ℚ :=
  xs.foldl (fun st s => (detect_sudden_movement thr s st).2) []

/-- The shared emotion history produced by a sequence of
`detect_rapid_emotion_change` calls starting from the empty history. -/
def runEmotion (thr : ℚ) (obs : List (ℚ × String)) : List (ℚ × String) :=
  obs.foldl (fun h o => (detect_rapid_emotion_change thr o.1 o.2 h).2) []

/-! ## Region deduplicator (`FaceDetector._remove_duplicates`) -/

/-- A candidate face region `(x, y, w, h)` in integer pixels. -/
structure Region where
  x : ℤ
  y : ℤ
  w : ℤ
  h : ℤ
  deriving DecidableEq, Repr

/-- The IoU computed inside `FaceDetector._remove_duplicates`
(`face_detector.py` lines 269-280): intersection area over union area
when the boxes overlap with positive union, `0` otherwise (the source
skips the comparison entirely for non-overlapping boxes, which is
equivalent to comparing `0` against the positive threshold). -/
def iou (face existing : Region) : ℚ :=
  let x_left := max face.x existing.x
  let y_top := max face.y existing.y
  let x_right := min (face.x + face.w) (existing.x + existing.w)
  let y_bottom := min (face.y + face.h) (existing.y + existing.h)
  if x_right > x_left ∧ y_bottom > y_top then
    let intersection := (x_right - x_left) * (y_bottom - y_top)
    let union := face.w * face.h + existing.w * existing.h - intersection
    if union > 0 then (intersection : ℚ) / (union : ℚ) else 0
  else 0

/-- The duplicate threshold hardcoded at `face_detector.py` line 282
(`if iou > 0.3:  # 30% de overlap = duplicata`). -/
def iou_threshold : ℚ := 3/10

/-- The inner loop of `_remove_duplicates`: a candidate is a duplicate
when some already-accepted region exceeds the IoU threshold against it. -/
def isDuplicate (unique_faces : List Region) (face : Region) : Bool :=
  unique_faces.any (fun existing => decide (iou face existing > iou_threshold))

/-- The outer loop of `_remove_duplicates` (`face_detector.py` lines
261-288): iterate candidates in input order, appending each non-duplicate
to the accepted list. -/
def removeDupAux : List Region → List Region → List Region
  | unique_faces, [] => unique_faces
  | unique_faces, face :: rest =>
    if isDuplicate unique_faces face then removeDupAux unique_faces rest
    else removeDupAux (unique_faces ++ [face]) rest

/-- Embeds `FaceDetector._remove_duplicates` (`face_detector.py` lines 248-289);
the early `if not faces: return []` agrees with the loop on the empty
list. -/
def remove_duplicates (faces : List Region) : List Region :=
  removeDupAux [] faces

/-! ## Statistics collector (`utils/statistics_collector.py`) -/

/-- The accumulated state of `StatisticsCollector` read by `get_summary`
and `ReportGenerator.generate_text_report`. `Counter`/`dict` fields are
embedded as association lists in first-insertion order (CPython dicts
preserve insertion order). `activities_by_person` is written but never
read by the analyzed operations and is omitted. -/
structure CollectorState where
  total_frames : ℕ := 0
  frames_with_faces : ℕ := 0
  frames_with_poses : ℕ := 0
  total_faces_count : ℕ := 0
  face_detections_per_frame : List ℕ := []
  emotions_counter : List (String × ℕ) := []
  emotions_timeline : List (ℚ × String) := []
  activities_counter : List (String × ℕ) := []
  anomalies : List AnomalyEvent := []
  anomalies_by_type : List (String × ℕ) := []
  timeline : List (ℚ × String) := []
  deriving DecidableEq, Repr

/-- Python's `max(items, key=lambda x: x[1])` on a counter: the first
entry whose count is maximal (later entries replace the running best only
when strictly greater). `Counter.most_common(1)[0]` produces the same
entry, since `most_common` sorts by count descending with a stable sort. -/
def firstMaxAux (best : String × ℕ) : List (String × ℕ) → String × ℕ
  | [] => best
  | kv :: rest => firstMaxAux (if kv.2 > best.2 then kv else best) rest

/-- First maximal-count entry of a counter, `none` when empty. -/
def firstMax : List (String × ℕ) → Option (String × ℕ)
  | [] => none
  | kv :: rest => some (firstMaxAux kv rest)

/-- Embeds `StatisticsCollector.get_dominant_activity`
(`statistics_collector.py` lines 120-129). -/
def get_dominant_activity (activities_counter : List (String × ℕ)) : String :=
  match firstMax activities_counter with
  | some kv => kv.1
  | none => "unknown"

/-- Python's stable `sorted(items, key=lambda x: x[1], reverse=True)` on
counter entries: insert each element before the already-sorted rest,
passing over entries with strictly greater count, so that entries with
equal counts keep their original (first-registered) order. -/
def insertByCountDesc (x : String × ℕ) :
    List (String × ℕ) → List (String × ℕ)
  | [] => [x]
  | y :: ys => if y.2 > x.2 then y :: insertByCountDesc x ys else x :: y :: ys

/-- Stable descending-by-count sort of counter entries. -/
def sortByCountDesc : List (String × ℕ) → List (String × ℕ)
  | [] => []
  | x :: xs => insertByCountDesc x (sortByCountDesc xs)

/-- Embeds `f"{(count / total * 100):.2f}%"`, the percentage formatting of
`get_summary`. -/
def fmtPct (count total : ℕ) : String :=
  formatQ 2 ((count : ℚ) / (total : ℚ) * 100) ++ "%"

/-- The summary dictionary returned by `StatisticsCollector.get_summary`
(`statistics_collector.py` lines 147-170), with its nested keys
flattened into one structure. -/
structure Summary where
  total_frames : ℕ
  frames_with_faces : ℕ
  frames_with_poses : ℕ
  detection_rate : String
  emotions_distribution : List (String × String)
  emotions_dominant : String
  top_5 : List (String × String)
  activities_distribution : List (String × ℕ)
  activities_dominant : String
  anomalies_total : ℕ
  anomalies_by_type : List (String × ℕ)
  anomalies_details : List AnomalyEvent
  deriving DecidableEq, Repr

/-- Embeds `StatisticsCollector.get_summary` (`statistics_collector.py` lines
131-170): detection rate guarded by `total_frames > 0` (else the literal
`"0%"`), emotion distribution guarded by `total_emotions > 0` (else the
empty dict), top-5 = stable descending sort truncated to five entries
(empty when no emotion was ever counted), dominant entries via first
maximum (`"unknown"` on empty counters). -/
def get_summary (st : CollectorState) : Summary :=
  let emotion_dist := st.emotions_counter
  let total_emotions := (emotion_dist.map Prod.snd).sum
  let top_5_emotions :=
    if emotion_dist ≠ [] then
      ((sortByCountDesc emotion_dist).take 5).map
        (fun kv => (kv.1, fmtPct kv.2 total_emotions))
    else []
  { total_frames := st.total_frames
    frames_with_faces := st.frames_with_faces
    frames_with_poses := st.frames_with_poses
    detection_rate :=
      if st.total_frames > 0 then fmtPct st.frames_with_faces st.total_frames
      else "0%"
    emotions_distribution :=
      if total_emotions > 0 then
        emotion_dist.map (fun kv => (kv.1, fmtPct kv.2 total_emotions))
      else []
    emotions_dominant :=
      match firstMax emotion_dist with
      | some kv => kv.1
      | none => "unknown"
    top_5 := top_5_emotions
    activities_distribution := st.activities_counter
    activities_dominant := get_dominant_activity st.activities_counter
    anomalies_total := st.anomalies.length
    anomalies_by_type := st.anomalies_by_type
    anomalies_details := st.anomalies }

/-! ## Report renderer (`src/report_generator.py`) -/

/-- The `video_info` dictionary assembled by
`VideoAnalyzer.process_video` (`video_analyzer.py` lines 126-133) and
passed to `generate_text_report`. -/
structure VideoInfo where
  path : String
  width : ℕ
  height : ℕ
  fps : ℚ
  total_frames : ℕ
  duration : ℚ
  deriving DecidableEq, Repr

/-- Embeds `float(s.rstrip('%'))` as applied by the report's distribution sort
to the percentage strings produced by `fmtPct`, which all have the shape
`digits.digits%`. Parsing the exact rational preserves the ordering the
source obtains from the parsed doubles: distinct two-decimal strings
denote rationals at least 1/100 apart, which doubles distinguish. -/
def parsePercent (s : String) : ℚ :=
  let t := s.dropRight 1
  match t.splitOn "." with
  | [ip, fp] => ((ip.toNat?).getD 0 : ℚ) + ((fp.toNat?).getD 0 : ℚ) / (10 : ℚ)^fp.length
  | [ip] => ((ip.toNat?).getD 0 : ℚ)
  | _ => 0

/-- The stable descending sort
`sorted(emotion_dist.items(), key=lambda x: float(x[1].rstrip('%')), reverse=True)`
at `report_generator.py` line 104. -/
def insertByPctDesc (x : String × String) :
    List (String × String) → List (String × String)
  | [] => [x]
  | y :: ys =>
    if parsePercent y.2 > parsePercent x.2 then y :: insertByPctDesc x ys
    else x :: y :: ys

/-- Stable descending sort of the percentage-string distribution. -/
def sortByPctDesc : List (String × String) → List (String × String)
  | [] => []
  | x :: xs => insertByPctDesc x (sortByPctDesc xs)

/-- The `emotion_translations` dict of `generate_text_report`. -/
def emotion_translations : List (String × String) :=
  [("happy", "Feliz"), ("sad", "Triste"), ("angry", "Raiva"),
   ("surprise", "Surpresa"), ("fear", "Medo"), ("disgust", "Desgosto"),
   ("neutral", "Neutro")]

/-- The `activity_translations` dict of `generate_text_report`. -/
def activity_translations : List (String × String) :=
  [("standing", "Em pé"), ("sitting", "Sentado"),
   ("arms_up", "Braços levantados"), ("crouching", "Agachado"),
   ("leaning", "Inclinado"), ("walking", "Caminhando"),
   ("waving", "Acenando"), ("unknown", "Desconhecido")]

/-- The `anomaly_translations` dict of `generate_text_report`. -/
def anomaly_translations : List (String × String) :=
  [("sudden_movement", "Movimentos bruscos"),
   ("abnormal_pose", "Poses anômalas"),
   ("rapid_emotion_change", "Mudanças emocionais súbitas"),
   ("sustained_extreme_emotion", "Emoções extremas sustentadas")]

/-- Python's `table.get(key, key)`. -/
def translate (tbl : List (String × String)) (k : String) : String :=
  match tbl.find? (fun kv => kv.1 == k) with
  | some kv => kv.2
  | none => k

/-- Embeds `enumerate(l, 1)`. -/
def enum1 {α : Type} (l : List α) : List (ℕ × α) :=
  List.zip (List.range' 1 l.length) l

/-- Embeds `"=" * 80`. -/
def hr80 : String := String.mk (List.replicate 80 '=')

/-- Embeds `"-" * 80`. -/
def dash80 : String := String.mk (List.replicate 80 '-')

/-- Embeds `ReportGenerator.generate_text_report` (`report_generator.py` lines
34-202) as the list of report lines it joins with `"\n"` and writes out
(file output is I/O, outside the analyzed core). `now` stands for the
wall-clock string `datetime.now().strftime('%d/%m/%Y às %H:%M:%S')`
interpolated at line 48 — the single input of the report that is not a
function of the collector state and stream metadata. -/
def generate_text_report (st : CollectorState) (info : VideoInfo)
    (now : String) : List String :=
  let summary := get_summary st
  [hr80, "RELATÓRIO DE ANÁLISE DE VÍDEO", hr80, "Gerado em: " ++ now, ""]
  ++ [dash80, "INFORMAÇÕES GERAIS", dash80,
      "Vídeo: " ++ info.path,
      "Duração: " ++ format_timestamp info.duration,
      "FPS: " ++ formatQ 2 info.fps,
      "Resolução: " ++ toString info.width ++ "x" ++ toString info.height,
      "Total de frames analisados: " ++ toString summary.total_frames,
      "Frames com rostos detectados: " ++ toString summary.frames_with_faces,
      "Frames com poses detectadas: " ++ toString summary.frames_with_poses,
      ""]
  ++ [dash80, "DETECÇÃO FACIAL", dash80,
      "Frames com rostos detectados: " ++ toString summary.frames_with_faces,
      "Taxa de detecção: " ++ summary.detection_rate,
      ""]
  ++ [dash80, "ANÁLISE DE EMOÇÕES", dash80]
  ++ (if summary.emotions_distribution ≠ [] then
        ["TOP 5 EMOÇÕES DOMINANTES:"]
        ++ (if summary.top_5 ≠ [] then
              (enum1 summary.top_5).map (fun ie =>
                "  " ++ toString ie.1 ++ ". " ++
                  translate emotion_translations ie.2.1 ++ ": " ++ ie.2.2)
            else ["  Dados insuficientes"])
        ++ ["", "Distribuição completa de emoções:"]
        ++ (sortByPctDesc summary.emotions_distribution).map (fun kv =>
              "  • " ++ translate emotion_translations kv.1 ++ ": " ++ kv.2)
      else ["Nenhuma emoção detectada"])
  ++ [""]
  ++ [dash80, "ATIVIDADES DETECTADAS", dash80]
  ++ (if summary.activities_distribution ≠ [] then
        ["Atividade principal: " ++ summary.activities_dominant,
         "", "Distribuição de atividades:"]
        ++ summary.activities_distribution.map (fun kv =>
              "  • " ++ translate activity_translations kv.1 ++ ": " ++
                toString kv.2 ++ " detecções")
      else ["Nenhuma atividade detectada"])
  ++ [""]
  ++ [dash80, "ANOMALIAS DETECTADAS", dash80,
      "Total de anomalias: " ++ toString summary.anomalies_total, ""]
  ++ (if summary.anomalies_by_type ≠ [] then
        ["Anomalias por tipo:"]
        ++ summary.anomalies_by_type.map (fun kv =>
              "  • " ++ translate anomaly_translations kv.1 ++ ": " ++
                toString kv.2 ++ " ocorrências")
        ++ [""]
        ++ (if summary.anomalies_details ≠ [] then
              ["Detalhes das anomalias (primeiras 20):"]
              ++ (enum1 (summary.anomalies_details.take 20)).map (fun ia =>
                    "  " ++ toString ia.1 ++ ". [" ++
                      format_timestamp ia.2.timestamp ++ "] Frame " ++
                      toString ia.2.frame ++ ": " ++ ia.2.description)
            else [])
      else ["Nenhuma anomalia detectada"])
  ++ [""]
  ++ (if st.timeline ≠ [] then
        [dash80, "LINHA DO TEMPO", dash80]
        ++ (st.timeline.take 50).map (fun te =>
              "[" ++ format_timestamp te.1 ++ "] " ++ te.2)
        ++ (if st.timeline.length > 50 then
              ["\n... e mais " ++ toString (st.timeline.length - 50) ++
                 " eventos"]
            else [])
        ++ [""]
      else [])
  ++ [hr80, "FIM DO RELATÓRIO", hr80]

/-- The structured export of `ReportGenerator.generate_summary_stats`
(`report_generator.py` lines 204-219). -/
structure SummaryStats where
  total_frames : ℕ
  frames_with_faces : ℕ
  top_emotions : List (String × String)
  dominant_activity : String
  total_anomalies : ℕ
  deriving DecidableEq, Repr

/-- Embeds `ReportGenerator.generate_summary_stats`. -/
def generate_summary_stats (st : CollectorState) : SummaryStats :=
  let summary := get_summary st
  { total_frames := summary.total_frames
    frames_with_faces := summary.frames_with_faces
    top_emotions := summary.top_5
    dominant_activity := summary.activities_dominant
    total_anomalies := summary.anomalies_total }

/-- Embeds `AnomalyDetector.get_average_movement_speed` (`anomaly_detector.py`
lines 221-230): `0.0` on the empty list, else the mean of all collected
speeds. -/
def get_average_movement_speed (speeds : List ℚ) : ℚ :=
  if speeds = [] then 0 else speeds.sum / (speeds.length : ℚ)

/-! ## Lemmas about the deduplicator -/

/-- The accepted list only grows: `removeDupAux` returns the accumulator
followed by a subsequence of the remaining input. -/
theorem removeDupAux_append_sublist (faces : List Region) :
    ∀ acc : List Region, ∃ l, removeDupAux acc faces = acc ++ l ∧
      l.Sublist faces := by
  induction faces with
  | nil => exact fun acc => ⟨[], by simp [removeDupAux]⟩
  | cons f rest ih =>
    intro acc
    by_cases h : isDuplicate acc f = true
    · obtain ⟨l, hEq, hSub⟩ := ih acc
      exact ⟨l, by simp [removeDupAux, h, hEq], hSub.cons f⟩
    · obtain ⟨l, hEq, hSub⟩ := ih (acc ++ [f])
      refine ⟨f :: l, ?_, hSub.cons₂ f⟩
      simp [removeDupAux, h, hEq]

/-- A candidate is accepted only when its IoU against each
already-accepted region stays at or below the threshold, so the accepted
list is always pairwise below the threshold. -/
theorem removeDupAux_pairwise (faces : List Region) :
    ∀ acc : List Region,
      acc.Pairwise (fun e f => iou f e ≤ iou_threshold) →
      (removeDupAux acc faces).Pairwise (fun e f => iou f e ≤ iou_threshold) := by
  induction faces with
  | nil => intro acc hacc; simpa [removeDupAux] using hacc
  | cons f rest ih =>
    intro acc hacc
    by_cases h : isDuplicate acc f = true
    · simpa [removeDupAux, h] using ih acc hacc
    · have hall : ∀ e ∈ acc, iou f e ≤ iou_threshold := by
        intro e he
        simp only [isDuplicate, List.any_eq_true, decide_eq_true_eq] at h
        exact le_of_not_lt (fun hlt => h ⟨e, he, hlt⟩)
      have hacc' : (acc ++ [f]).Pairwise (fun e f => iou f e ≤ iou_threshold) := by
        refine List.pairwise_append.mpr ⟨hacc, List.pairwise_singleton _ _, ?_⟩
        intro a ha b hb
        simp only [List.mem_singleton] at hb
        subst hb
        exact hall a ha
      simpa [removeDupAux, h] using ih (acc ++ [f]) hacc'

/-- The dedup loop processes the input left to right: the accumulator
after a prefix is the whole computation restarted on the remainder. -/
theorem removeDupAux_append (l1 l2 : List Region) :
    ∀ acc : List Region,
      removeDupAux acc (l1 ++ l2) = removeDupAux (removeDupAux acc l1) l2 := by
  induction l1 with
  | nil => intro acc; rfl
  | cons f rest ih =>
    intro acc
    by_cases h : isDuplicate acc f = true <;>
      simp [removeDupAux, h, ih]

/-- C7: the deduplicator iterates candidates in input order and accepts
a candidate exactly when its IoU against every already-accepted region is
at most the configured threshold. Conjuncts: the output is a subsequence
of the input (input order preserved); any two retained regions have IoU
at most the threshold — so of two input regions with IoU above the
threshold never both survive; a region overlapping itself above the
threshold appears at most once; and the per-position acceptance iff: for
the candidate at any position (input = `pre ++ f :: post`, with
`remove_duplicates pre` exactly the regions accepted before it), if its
IoU against every one of them is at most the threshold it is retained,
appearing in the output right after them; otherwise it is skipped and the
output is that of the input without it. In particular, for `[A, B]` with
IoU above the threshold the output is `[A]` — the earlier one — never
`[B]`. -/
theorem c7_dedup_first_seen_wins (faces : List Region) :
    (remove_duplicates faces).Sublist faces ∧
    (remove_duplicates faces).Pairwise (fun e f => iou f e ≤ iou_threshold) ∧
    (∀ r : Region, iou_threshold < iou r r →
      (remove_duplicates faces).count r ≤ 1) ∧
    (∀ (pre : List Region) (f : Region) (post : List Region),
      faces = pre ++ f :: post →
      ((∀ e ∈ remove_duplicates pre, iou f e ≤ iou_threshold) →
        ∃ rest, remove_duplicates faces =
          remove_duplicates pre ++ f :: rest) ∧
      ((∃ e ∈ remove_duplicates pre, iou_threshold < iou f e) →
        remove_duplicates faces = remove_duplicates (pre ++ post))) := by
  obtain ⟨l, hEq, hSub⟩ := removeDupAux_append_sublist faces []
  have hout : remove_duplicates faces = l := by
    simpa [remove_duplicates] using hEq
  have hpw : (remove_duplicates faces).Pairwise
      (fun e f => iou f e ≤ iou_threshold) :=
    removeDupAux_pairwise faces [] List.Pairwise.nil
  refine ⟨by rw [hout]; exact hSub, hpw, ?_, ?_⟩
  · intro r hr
    by_contra hc
    have hrep : (List.replicate 2 r).Sublist (remove_duplicates faces) :=
      List.le_count_iff_replicate_sublist.mp (by omega)
    have hpp : (List.replicate 2 r).Pairwise
        (fun e f => iou f e ≤ iou_threshold) := hpw.sublist hrep
    have : iou r r ≤ iou_threshold := by
      simpa [List.replicate, List.pairwise_cons] using hpp
    linarith
  · intro pre f post hfaces
    subst hfaces
    have hsplit : remove_duplicates (pre ++ f :: post) =
        removeDupAux (remove_duplicates pre) (f :: post) := by
      show removeDupAux [] (pre ++ f :: post) = _
      rw [removeDupAux_append pre (f :: post) []]
      rfl
    have hstep : removeDupAux (remove_duplicates pre) (f :: post) =
        if isDuplicate (remove_duplicates pre) f = true
        then removeDupAux (remove_duplicates pre) post
        else removeDupAux (remove_duplicates pre ++ [f]) post := rfl
    constructor
    · intro hall
      have hnd : ¬ (isDuplicate (remove_duplicates pre) f = true) := by
        simp only [isDuplicate, List.any_eq_true, decide_eq_true_eq]
        rintro ⟨e, he, hgt⟩
        exact absurd hgt (not_lt.mpr (hall e he))
      obtain ⟨l2, hEq2, -⟩ :=
        removeDupAux_append_sublist post (remove_duplicates pre ++ [f])
      refine ⟨l2, ?_⟩
      rw [hsplit, hstep, if_neg hnd, hEq2, List.append_assoc,
        List.singleton_append]
    · rintro ⟨e, he, hgt⟩
      have hd : isDuplicate (remove_duplicates pre) f = true := by
        simp only [isDuplicate, List.any_eq_true, decide_eq_true_eq]
        exact ⟨e, he, hgt⟩
      have hsplit2 : remove_duplicates (pre ++ post) =
          removeDupAux (remove_duplicates pre) post := by
        show removeDupAux [] (pre ++ post) = _
        rw [removeDupAux_append pre post []]
        rfl
      rw [hsplit, hstep, if_pos hd, hsplit2]

/-- Witness for the hypotheses of `c7_dedup_first_seen_wins`, on the
input `[A, B]` with `A = (0,0,10,10)`, `B = (1,1,10,10)` and
`iou A B = 81/119 > 0.3`: the self-duplicate count bound, the
acceptance of `A` at the head (`A` heads the output), and the rejection
of `B` (the output equals that of `[A]` alone — the earlier region is
the one kept, never `B`). -/
theorem c7_dedup_first_seen_wins_witness :
    (remove_duplicates [⟨0, 0, 10, 10⟩, ⟨0, 0, 10, 10⟩]).count
      ⟨0, 0, 10, 10⟩ ≤ 1 ∧
    (∃ rest, remove_duplicates [⟨0, 0, 10, 10⟩, ⟨1, 1, 10, 10⟩] =
      remove_duplicates [] ++ (⟨0, 0, 10, 10⟩ : Region) :: rest) ∧
    remove_duplicates [⟨0, 0, 10, 10⟩, ⟨1, 1, 10, 10⟩] =
      remove_duplicates ([⟨0, 0, 10, 10⟩] ++ []) :=
  ⟨(c7_dedup_first_seen_wins [⟨0, 0, 10, 10⟩, ⟨0, 0, 10, 10⟩]).2.2.1
      ⟨0, 0, 10, 10⟩ (by norm_num [iou, iou_threshold]),
   ((c7_dedup_first_seen_wins [⟨0, 0, 10, 10⟩, ⟨1, 1, 10, 10⟩]).2.2.2
      [] ⟨0, 0, 10, 10⟩ [⟨1, 1, 10, 10⟩] rfl).1
      (fun e he => absurd he (List.not_mem_nil e)),
   ((c7_dedup_first_seen_wins [⟨0, 0, 10, 10⟩, ⟨1, 1, 10, 10⟩]).2.2.2
      [⟨0, 0, 10, 10⟩] ⟨1, 1, 10, 10⟩ [] rfl).2
      ⟨⟨0, 0, 10, 10⟩, List.mem_singleton.mpr rfl,
        by norm_num [iou, iou_threshold]⟩⟩

/-! ## Lemmas about the rolling state updates -/

/-- Lemma: `detect_sudden_movement` always appends the current speed to
`movement_speeds` and never removes anything. -/
theorem detect_sudden_snd (thr s : ℚ) (st : List ℚ) :
    (detect_sudden_movement thr s st).2 = st ++ [s] := by
  unfold detect_sudden_movement
  dsimp only
  split <;> rfl

/-- Iterating `detect_sudden_movement` from the empty state accumulates
exactly the fed speeds. -/
theorem runSpeeds_eq (thr : ℚ) (xs : List ℚ) : runSpeeds thr xs = xs := by
  have key : ∀ (ys acc : List ℚ),
      ys.foldl (fun st s => (detect_sudden_movement thr s st).2) acc
        = acc ++ ys := by
    intro ys
    induction ys with
    | nil => intro acc; simp
    | cons y rest ih =>
      intro acc
      rw [List.foldl_cons, detect_sudden_snd, ih]
      simp
  simpa [runSpeeds] using key xs []

/-- The append-then-evict update keeps the classifier history within its
capacity. -/
theorem pushHistory_length_le {h : List ℚ} (x : ℚ) (hle : h.length ≤ 10) :
    (pushHistory h x).length ≤ 10 := by
  simp only [pushHistory, history_size]
  split_ifs with hgt
  · simp only [List.length_drop, List.length_append, List.length_singleton]
    omega
  · simp only [List.length_append, List.length_singleton, not_lt] at hgt ⊢
    omega

/-- Lemma: `classify_activity` updates the history exactly on the `standing`
fall-through branch (with the hip-centroid-x append), and leaves it
untouched on every other branch. -/
theorem classify_snd_cases (lm : PoseLandmarks) (hist : List ℚ) :
    ((classify_activity (some lm) hist).1 = "standing" ∧
      (classify_activity (some lm) hist).2 =
        pushHistory hist ((lm.left_hip.x + lm.right_hip.x) / 2)) ∨
    ((classify_activity (some lm) hist).1 ≠ "standing" ∧
      (classify_activity (some lm) hist).2 = hist) := by
  unfold classify_activity
  dsimp only
  split_ifs <;>
    first
      | exact Or.inl ⟨rfl, rfl⟩
      | exact Or.inr ⟨by simp, rfl⟩

/-- One classification step keeps the history within capacity 10. -/
theorem classify_hist_length_le (lm? : Option PoseLandmarks) {h : List ℚ}
    (hle : h.length ≤ 10) : ((classify_activity lm? h).2).length ≤ 10 := by
  cases lm? with
  | none => simpa [classify_activity] using hle
  | some lm =>
    rcases classify_snd_cases lm h with ⟨_, h2⟩ | ⟨_, h2⟩
    · rw [h2]
      exact pushHistory_length_le _ hle
    · rw [h2]
      exact hle

/-- Any run of the classifier from the empty history keeps at most 10
entries. -/
theorem runClassifier_length_le (frames : List (Option PoseLandmarks)) :
    (runClassifier frames).length ≤ 10 := by
  have key : ∀ (fs : List (Option PoseLandmarks)) (acc : List ℚ),
      acc.length ≤ 10 →
      (fs.foldl (fun h lm => (classify_activity lm h).2) acc).length ≤ 10 := by
    intro fs
    induction fs with
    | nil => intro acc h; simpa using h
    | cons f rest ih =>
      intro acc h
      exact ih _ (classify_hist_length_le f h)
  simpa [runClassifier] using key frames [] (by simp)

/-- The shared emotion history update of `detect_rapid_emotion_change`:
append, then evict the oldest entry once the length exceeds 10;
every branch of the source returns this trimmed history. -/
theorem detect_rapid_snd (thr ts : ℚ) (emo : String)
    (h : List (ℚ × String)) :
    (detect_rapid_emotion_change thr ts emo h).2 =
      if (h ++ [(ts, emo)]).length > 10 then (h ++ [(ts, emo)]).drop 1
      else h ++ [(ts, emo)] := by
  unfold detect_rapid_emotion_change
  dsimp only
  repeat' split
  all_goals rfl

/-- One rapid-emotion-change step keeps the shared emotion history
within capacity 10. -/
theorem detect_rapid_length_le (thr ts : ℚ) (emo : String)
    {h : List (ℚ × String)} (hle : h.length ≤ 10) :
    ((detect_rapid_emotion_change thr ts emo h).2).length ≤ 10 := by
  rw [detect_rapid_snd]
  split_ifs with hgt
  · simp only [List.length_drop, List.length_append, List.length_singleton]
    omega
  · simp only [List.length_append, List.length_singleton, gt_iff_lt,
      not_lt] at hgt ⊢
    omega

/-- Any run of the rapid-emotion-change detector from the empty history
keeps at most 10 entries. -/
theorem runEmotion_length_le (thr : ℚ) (obs : List (ℚ × String)) :
    (runEmotion thr obs).length ≤ 10 := by
  have key : ∀ (os : List (ℚ × String)) (acc : List (ℚ × String)),
      acc.length ≤ 10 →
      (os.foldl (fun h o => (detect_rapid_emotion_change thr o.1 o.2 h).2)
        acc).length ≤ 10 := by
    intro os
    induction os with
    | nil => intro acc h; simpa using h
    | cons o rest ih =>
      intro acc h
      exact ih _ (detect_rapid_length_le thr o.1 o.2 h)
  simpa [runEmotion] using key obs [] (by simp)

/-- Dropping from a replicated list leaves a replicated list. -/
theorem drop_replicate {α : Type} (k m : ℕ) (a : α) :
    (List.replicate m a).drop k = List.replicate (m - k) a := by
  induction k generalizing m with
  | zero => simp
  | succ k ih =>
    cases m with
    | zero => simp
    | succ m => simp only [List.replicate_succ, List.drop_succ_cons,
        Nat.succ_sub_succ]; exact ih m

/-- A concrete pose whose geometry satisfies the `sitting` rule and none
of the earlier rules: shoulders at `y = 1/5`, elbows at `2/5`, wrists
and hips at `1/2`, knees at `11/20` (`|hip_y - knee_y| = 1/20 < 0.15`). -/
def lmSit : PoseLandmarks :=
  { left_shoulder := ⟨0, 1/5⟩, right_shoulder := ⟨0, 1/5⟩
    left_elbow := ⟨0, 2/5⟩, right_elbow := ⟨0, 2/5⟩
    left_wrist := ⟨0, 1/2⟩, right_wrist := ⟨0, 1/2⟩
    left_hip := ⟨1/2, 1/2⟩, right_hip := ⟨1/2, 1/2⟩
    left_knee := ⟨0, 11/20⟩, right_knee := ⟨0, 11/20⟩
    left_ankle := ⟨0, 9/10⟩, right_ankle := ⟨0, 9/10⟩
    nose := ⟨0, 1/10⟩ }

/-- C3 counterexample: a frame with a pose classified `sitting` leaves
the history untouched (the source's history append at
`activity_detector.py` lines 144-147 sits after the `return` statements
of every non-`standing` rule), refuting the claim that the hip-centroid-x
is appended on every call that has a pose. -/
theorem c3_history_not_updated_counterexample :
    classify_activity (some lmSit) [] = ("sitting", []) := by
  norm_num [classify_activity, lmSit, abs_of_nonneg]

/-- C3 (amended): `classify_activity` appends the hip-centroid-x to the
bounded history (evicting the oldest entry beyond capacity 10) exactly
on the calls that fall through to the default `standing` label; calls
returning any earlier rule's label — or `walking` — leave the history
unchanged. -/
theorem c3_history_updated_only_on_standing
    (lm : PoseLandmarks) (hist : List ℚ) :
    ((classify_activity (some lm) hist).1 = "standing" →
      (classify_activity (some lm) hist).2 =
        pushHistory hist ((lm.left_hip.x + lm.right_hip.x) / 2)) ∧
    ((classify_activity (some lm) hist).1 ≠ "standing" →
      (classify_activity (some lm) hist).2 = hist) := by
  rcases classify_snd_cases lm hist with ⟨h1, h2⟩ | ⟨h1, h2⟩
  · exact ⟨fun _ => h2, fun hne => absurd h1 hne⟩
  · exact ⟨fun he => absurd he h1, fun _ => h2⟩

/-- Witness for `c3_history_updated_only_on_standing`: at the concrete
`sitting` pose the non-`standing` branch applies and the history stays
empty. -/
theorem c3_history_updated_only_on_standing_witness :
    (classify_activity (some lmSit) []).2 = [] :=
  (c3_history_updated_only_on_standing lmSit []).2
    (by norm_num [classify_activity, lmSit, abs_of_nonneg]; decide)

/-- C4 counterexample: after 31 calls to `detect_sudden_movement` the
`movement_speeds` list holds 31 entries — it is a plain Python list that
is appended to and never truncated (the `deque(maxlen=30)` created in
`__init__` is never used), refuting the claim that the sudden-movement
speed buffer holds at most 30 entries. -/
theorem c4_speed_buffer_unbounded_counterexample :
    30 < (runSpeeds 3 (List.replicate 31 0)).length := by
  rw [runSpeeds_eq]
  simp

/-- C4 (amended): after any sequence of per-frame updates the
classifier's centroid history holds at most 10 entries and the shared
emotion history holds at most 10 entries (fixed capacity, FIFO
eviction), while the sudden-movement `movement_speeds` list grows by one
entry per call without bound — only the mean is restricted to the last
30 entries. -/
theorem c4_bounded_histories (frames : List (Option PoseLandmarks))
    (thr : ℚ) (obs : List (ℚ × String)) (xs : List ℚ) :
    (runClassifier frames).length ≤ 10 ∧
    (runEmotion thr obs).length ≤ 10 ∧
    (runSpeeds thr xs).length = xs.length :=
  ⟨runClassifier_length_le frames, runEmotion_length_le thr obs, by
    rw [runSpeeds_eq]⟩

/-- C5: the sudden-movement flag never fires while fewer than 10 speed
samples (including the current one) have been collected; and when a
constant speed `s > 0` is fed on every call — so the mean of the last 30
samples is exactly `s` — the flag never fires, since `s > s * 3` is
impossible for positive `s`. -/
theorem c5_sudden_movement_activation :
    (∀ (thr s : ℚ) (st : List ℚ), st.length + 1 < 10 →
      (detect_sudden_movement thr s st).1 = false) ∧
    (∀ s : ℚ, 0 < s → ∀ n : ℕ,
      (detect_sudden_movement 3 s (runSpeeds 3 (List.replicate n s))).1
        = false) := by
  constructor
  · intro thr s st hlen
    unfold detect_sudden_movement
    dsimp only
    rw [if_pos (by simpa using hlen)]
  · intro s hs n
    rw [runSpeeds_eq]
    unfold detect_sudden_movement
    dsimp only
    rw [show List.replicate n s ++ [s] = List.replicate (n + 1) s from
      (List.replicate_succ' n s).symm]
    by_cases hn : (List.replicate (n + 1) s).length < 10
    · rw [if_pos hn]
    · rw [if_neg hn]
      dsimp only
      simp only [List.length_replicate, not_lt] at hn
      simp only [List.length_replicate, drop_replicate, List.sum_replicate,
        nsmul_eq_mul]
      have hmne : ((n + 1 - (n + 1 - 30) : ℕ) : ℚ) ≠ 0 :=
        Nat.cast_ne_zero.mpr (by omega)
      rw [mul_div_cancel_left₀ s hmne]
      simp only [decide_eq_false_iff_not]
      rintro ⟨-, h2⟩
      linarith

/-- Witness for the hypotheses of `c5_sudden_movement_activation`: one
first sample never fires, and a constant speed `1` fed 13 times (12
recorded plus the current call) never fires. -/
theorem c5_sudden_movement_activation_witness :
    (detect_sudden_movement 3 1 []).1 = false ∧
    (detect_sudden_movement 3 1 (runSpeeds 3 (List.replicate 12 1))).1
      = false :=
  ⟨c5_sudden_movement_activation.1 3 1 [] (by norm_num),
   c5_sudden_movement_activation.2 1 one_pos 12⟩

/-- The claim-side reading of the sustained-emotion scan: the unbroken
run of the current label at the tail of the shared history spans
`current_timestamp` minus the earliest timestamp of the run (`0` when
the run is empty). -/
def tailRunSpan (emotion : String) (current_timestamp : ℚ)
    (hist : List (ℚ × String)) : ℚ :=
  match (hist.reverse.takeWhile (fun e => e.2 == emotion)).getLast? with
  | none => 0
  | some e => current_timestamp - e.1

/-- The backward scan computes exactly the tail-run span (with the
accumulator as the value for an empty run). -/
theorem sustainLoop_eq (emotion : String) (ts : ℚ) :
    ∀ (l : List (ℚ × String)) (d : ℚ),
      sustainLoop emotion ts l d =
        match (l.takeWhile (fun e => e.2 == emotion)).getLast? with
        | none => d
        | some e => ts - e.1 := by
  intro l
  induction l with
  | nil => intro d; rfl
  | cons p rest ih =>
    obtain ⟨t, emo⟩ := p
    intro d
    by_cases hp : emo = emotion
    · subst hp
      show (if emo ≠ emo then d else sustainLoop emo ts rest (ts - t)) = _
      rw [if_neg (fun hc => hc rfl)]
      rw [ih (ts - t)]
      have htw : List.takeWhile (fun e => e.2 == emo) ((t, emo) :: rest)
          = (t, emo) :: List.takeWhile (fun e => e.2 == emo) rest := by
        simp [List.takeWhile_cons]
      rw [htw]
      cases hl : rest.takeWhile (fun e => e.2 == emo) with
      | nil => simp
      | cons a l2 =>
        rw [List.getLast?_cons_cons]
        cases h2 : (a :: l2).getLast? with
        | none => exact absurd h2 (by simp)
        | some q => rfl
    · show (if emo ≠ emotion then d else sustainLoop emotion ts rest (ts - t)) = _
      rw [if_pos hp]
      have htw : List.takeWhile (fun e => e.2 == emotion) ((t, emo) :: rest)
          = [] := by
        simp [List.takeWhile_cons, hp]
      rw [htw]
      rfl

/-- C6: the sustained-extreme-emotion detector fires exactly when the
current emotion is in `{angry, fear, disgust}` and the unbroken run of
that label at the tail of the shared emotion history spans at least the
duration threshold, measured from the current timestamp back to the
earliest timestamp of the run; any entry with a different label cuts the
run short, so the flag does not fire after it. -/
theorem c6_sustained_extreme_iff (emotion : String) (ts thr : ℚ)
    (hist : List (ℚ × String)) (hthr : 0 < thr) :
    detect_extreme_emotion_sustained emotion ts thr hist = true ↔
      (emotion ∈ extreme_emotions ∧ thr ≤ tailRunSpan emotion ts hist) := by
  unfold detect_extreme_emotion_sustained
  by_cases hm : emotion ∈ extreme_emotions
  · rw [if_neg (fun hc => hc hm)]
    cases hist with
    | nil =>
      constructor
      · intro h; exact absurd h (by simp)
      · rintro ⟨-, hle⟩
        have : tailRunSpan emotion ts [] = 0 := rfl
        rw [this] at hle
        linarith
    | cons p rest =>
      have hspan : sustainLoop emotion ts (p :: rest).reverse 0 =
          tailRunSpan emotion ts (p :: rest) := by
        rw [sustainLoop_eq]
        rfl
      dsimp only
      rw [hspan]
      simp only [ge_iff_le, decide_eq_true_eq]
      exact ⟨fun h => ⟨hm, h⟩, fun h => h.2⟩
  · rw [if_pos hm]
    simp [hm]

/-- Witness for the hypothesis of `c6_sustained_extreme_iff`: an
unbroken `angry` run recorded at timestamps 0 and 1, checked at
timestamp 6 against the default threshold 5, fires. -/
theorem c6_sustained_extreme_iff_witness :
    detect_extreme_emotion_sustained "angry" 6 5
      [(0, "angry"), (1, "angry")] = true :=
  (c6_sustained_extreme_iff "angry" 6 5 [(0, "angry"), (1, "angry")]
      (by norm_num)).mpr
    ⟨by decide, by
      rw [show tailRunSpan "angry" 6 [(0, "angry"), (1, "angry")]
        = 6 - 0 from rfl]
      norm_num⟩

/-- C8: `get_summary` on a state with zero frames and no recorded
emotions or activities returns the literal `"0%"` detection rate (the
guarded branch never divides), an empty emotion distribution, an empty
top-5 list, and `"unknown"` for both dominant labels. -/
theorem c8_zero_frames_summary (st : CollectorState)
    (h0 : st.total_frames = 0) (he : st.emotions_counter = [])
    (ha : st.activities_counter = []) :
    (get_summary st).detection_rate = "0%" ∧
    (get_summary st).emotions_distribution = [] ∧
    (get_summary st).top_5 = [] ∧
    (get_summary st).emotions_dominant = "unknown" ∧
    (get_summary st).activities_dominant = "unknown" := by
  simp [get_summary, get_dominant_activity, firstMax, h0, he, ha]

/-- Witness for the hypotheses of `c8_zero_frames_summary`: the freshly
initialized collector. -/
theorem c8_zero_frames_summary_witness :
    (get_summary {}).detection_rate = "0%" ∧
    (get_summary {}).emotions_distribution = [] ∧
    (get_summary {}).top_5 = [] ∧
    (get_summary {}).emotions_dominant = "unknown" ∧
    (get_summary {}).activities_dominant = "unknown" :=
  c8_zero_frames_summary {} rfl rfl rfl

/-- A concrete pose whose hip centroid is `(4/5, 3/5)`. -/
def lmC1 : PoseLandmarks :=
  { left_shoulder := ⟨0, 0⟩, right_shoulder := ⟨0, 0⟩
    left_elbow := ⟨0, 0⟩, right_elbow := ⟨0, 0⟩
    left_wrist := ⟨0, 0⟩, right_wrist := ⟨0, 0⟩
    left_hip := ⟨4/5, 3/5⟩, right_hip := ⟨4/5, 3/5⟩
    left_knee := ⟨0, 0⟩, right_knee := ⟨0, 0⟩
    left_ankle := ⟨0, 0⟩, right_ankle := ⟨0, 0⟩
    nose := ⟨0, 0⟩ }

/-- C1: with a pose present and one prior recorded sample `0.5` in the
history, the code returns `0.0` — the history's sole write site stores
the scalar hip-centroid-x, so the `isinstance(prev_center, tuple)` guard
of `calculate_movement_speed` never passes and the Euclidean distance is
never computed — while the claimed Euclidean distance between the
current hip centroid `(4/5, 3/5)` and any previously recorded centroid
with `x = 1/2` is positive (its square is at least `(4/5 - 1/2)^2 > 0`). -/
theorem c1_speed_stuck_at_zero :
    calculate_movement_speed (some lmC1) [1/2] = 0 ∧
    0 < specMovementSq (hipCentroid lmC1) (1/2, 3/5) := by
  constructor
  · rfl
  · norm_num [specMovementSq, hipCentroid, lmC1]

/-- C2 counterexample: two runs of the text-report renderer on the very
same collector state and stream metadata but at different wall-clock
instants produce different bytes — line 4 of the report interpolates
`datetime.now()` (`report_generator.py` line 48) — refuting
byte-for-byte determinism of the text report. -/
theorem c2_report_not_deterministic_counterexample :
    generate_text_report {} ⟨"video.mp4", 640, 480, 30, 100, 10⟩
      "01/01/2025 às 10:00:00" ≠
    generate_text_report {} ⟨"video.mp4", 640, 480, 30, 100, 10⟩
      "01/01/2025 às 10:00:01" := by
  intro h
  have h4 : some ("Gerado em: " ++ "01/01/2025 às 10:00:00")
      = some ("Gerado em: " ++ "01/01/2025 às 10:00:01") :=
    congrArg (fun l : List String => l.get? 3) h
  exact absurd (Option.some.inj h4) (by decide)

/-- C2 (amended): given identical accumulated statistics and stream
metadata, the structured export is identical across runs (it is a pure
function of the collector state), and the text reports of two runs agree
on every line except the generation-timestamp line at index 3. -/
theorem c2_report_deterministic_outside_timestamp_line
    (st : CollectorState) (info : VideoInfo) (t1 t2 : String) :
    (generate_text_report st info t1).eraseIdx 3 =
      (generate_text_report st info t2).eraseIdx 3 := by
  rfl

/-- Feeding speed `0` into the sudden-movement detector never fires for
any threshold: the mean of an all-zero window is `0`, failing the
`avg_speed > 0` guard. -/
theorem sudden_zero_false (thr : ℚ) (n : ℕ) :
    (detect_sudden_movement thr 0 (List.replicate n 0)).1 = false := by
  unfold detect_sudden_movement
  dsimp only
  rw [show List.replicate n (0 : ℚ) ++ [0] = List.replicate (n + 1) 0 from
    (List.replicate_succ' n 0).symm]
  split_ifs with h
  · rfl
  · dsimp only
    simp [drop_replicate]

/-- Membership in a conditionally extended list. -/
theorem mem_ite_append {α : Type} (e : α) (c : Prop) [Decidable c]
    (l : List α) (ev : α) (h : e ∈ (if c then l ++ [ev] else l)) :
    e ∈ l ∨ e = ev := by
  split_ifs at h
  · rcases List.mem_append.mp h with h1 | h1
    · exact Or.inl h1
    · exact Or.inr (by simpa using h1)
  · exact Or.inl h

/-- Each emotion-loop step only appends rapid-emotion-change or
sustained-extreme-emotion events. -/
theorem emotionChecksStep_mem (cfg : AnomalyConfig) (fn : ℕ) (ts : ℚ)
    (acc : List AnomalyEvent × List (ℚ × String)) (kv : String × String) :
    ∀ e ∈ (emotionChecksStep cfg fn ts acc kv).1,
      e ∈ acc.1 ∨ e.type = "rapid_emotion_change" ∨
        e.type = "sustained_extreme_emotion" := by
  intro e he
  unfold emotionChecksStep at he
  dsimp only at he
  rcases mem_ite_append e _ _ _ he with h1 | rfl
  · rcases mem_ite_append e _ _ _ h1 with h0 | rfl
    · exact Or.inl h0
    · exact Or.inr (Or.inl rfl)
  · exact Or.inr (Or.inr rfl)

/-- Every event produced by the per-subject emotion loop either was in
the accumulator already or is a rapid/sustained emotion event. -/
theorem foldl_emotionChecks_types (cfg : AnomalyConfig) (fn : ℕ) (ts : ℚ) :
    ∀ (ed : List (String × String))
      (acc : List AnomalyEvent × List (ℚ × String)),
      ∀ e ∈ (ed.foldl (emotionChecksStep cfg fn ts) acc).1,
        e ∈ acc.1 ∨ e.type = "rapid_emotion_change" ∨
          e.type = "sustained_extreme_emotion" := by
  intro ed
  induction ed with
  | nil => intro acc e he; exact Or.inl he
  | cons kv rest ih =>
    intro acc e he
    rw [List.foldl_cons] at he
    rcases ih (emotionChecksStep cfg fn ts acc kv) e he with h1 | h | h
    · rcases emotionChecksStep_mem cfg fn ts acc kv e h1 with h0 | h | h
      · exact Or.inl h0
      · exact Or.inr (Or.inl h)
      · exact Or.inr (Or.inr h)
    · exact Or.inr (Or.inl h)
    · exact Or.inr (Or.inr h)

/-- C9: in the integrated pipeline `classify_activity` stores scalar
hip-centroid-x values in `pose_history` while `calculate_movement_speed`
would only compute a distance for a tuple entry, so the speed is `0.0`
on every frame; consequently the mean of the recorded speeds stays `0`
and `analyze_frame_for_anomalies` never emits a `sudden_movement`
event. -/
theorem c9_pipeline_never_flags_sudden_movement :
    (∀ (lm? : Option PoseLandmarks) (hist : List ℚ),
      calculate_movement_speed lm? hist = 0) ∧
    (∀ (thr : ℚ) (n : ℕ),
      (detect_sudden_movement thr 0 (List.replicate n 0)).1 = false ∧
      get_average_movement_speed (List.replicate n 0) = 0) ∧
    (∀ (cfg : AnomalyConfig) (fn : ℕ) (ts : ℚ) (pl : Option PoseLandmarks)
      (pc : ℚ) (ed : List (String × String)) (eh : List (ℚ × String))
      (n : ℕ),
      ∀ e ∈ (analyze_frame_for_anomalies cfg fn ts 0 pl pc ed
        ⟨List.replicate n 0, eh⟩).1, e.type ≠ "sudden_movement") := by
  refine ⟨?_, ?_, ?_⟩
  · intro lm? hist
    cases lm? with
    | none => rfl
    | some lm =>
      cases h : hist.getLast? with
      | none => simp [calculate_movement_speed, h]
      | some p => simp [calculate_movement_speed, h]
  · intro thr n
    refine ⟨sudden_zero_false thr n, ?_⟩
    unfold get_average_movement_speed
    split_ifs with h
    · rfl
    · simp
  · intro cfg fn ts pl pc ed eh n e he
    unfold analyze_frame_for_anomalies at he
    dsimp only at he
    rw [sudden_zero_false] at he
    simp only [Bool.false_eq_true, reduceIte, List.nil_append] at he
    rcases foldl_emotionChecks_types cfg fn ts ed _ e he with h1 | h | h
    · cases pl with
      | none => exact absurd h1 (by simp)
      | some lm =>
        dsimp only at h1
        split_ifs at h1
        · simp only [List.mem_singleton] at h1
          subst h1
          simp
        · exact absurd h1 (by simp)
    · rw [h]; simp
    · rw [h]; simp

/-- Witness for the hypotheses of
`c9_pipeline_never_flags_sudden_movement`: a concrete frame that does
emit an event (a rapid emotion change), whose type is not
`sudden_movement`. -/
theorem c9_pipeline_never_flags_sudden_movement_witness :
    (⟨1, 1, "rapid_emotion_change",
      "Mudança emocional rápida para happy"⟩ : AnomalyEvent).type ≠
      "sudden_movement" := by
  have hmem : (⟨1, 1, "rapid_emotion_change",
      "Mudança emocional rápida para happy"⟩ : AnomalyEvent) ∈
      (analyze_frame_for_anomalies ⟨3, 1/2, 2⟩ 1 1 0 none 0
        [("face", "happy")] ⟨List.replicate 0 0, [(0, "sad")]⟩).1 := by
    norm_num [analyze_frame_for_anomalies, emotionChecksStep,
      detect_sudden_movement, detect_rapid_emotion_change,
      detect_extreme_emotion_sustained, extreme_emotions, sustainLoop]
    decide
  exact c9_pipeline_never_flags_sudden_movement.2.2 ⟨3, 1/2, 2⟩ 1 1 none 0
    [("face", "happy")] [(0, "sad")] 0 _ hmem

/-- C10: under the orchestrator's integration — pose confidence `1.0`
whenever a pose is present, abnormal-pose check skipped when absent —
`analyze_frame_for_anomalies` never emits an `abnormal_pose` event for
any confidence threshold at most `1.0`. -/
theorem c10_never_flags_abnormal_pose (cfg : AnomalyConfig) (fn : ℕ)
    (ts ms : ℚ) (pl : Option PoseLandmarks) (ed : List (String × String))
    (st : AnomalyState) (hthr : cfg.pose_confidence_threshold ≤ 1) :
    ∀ e ∈ (analyze_frame_for_anomalies cfg fn ts ms pl
      (if pl.isSome then 1 else 0) ed st).1, e.type ≠ "abnormal_pose" := by
  intro e he
  cases pl with
  | none =>
    unfold analyze_frame_for_anomalies at he
    dsimp only at he
    simp only [List.append_nil] at he
    rcases foldl_emotionChecks_types cfg fn ts ed _ e he with h1 | h | h
    · split_ifs at h1
      · simp only [List.mem_singleton] at h1
        subst h1
        simp
      · exact absurd h1 (by simp)
    · rw [h]; simp
    · rw [h]; simp
  | some lm =>
    unfold analyze_frame_for_anomalies at he
    dsimp only at he
    simp only [Option.isSome_some, reduceIte] at he
    have hab : (detect_abnormal_pose cfg.pose_confidence_threshold
        (some lm) 1).1 = false := by
      unfold detect_abnormal_pose
      dsimp only
      rw [if_neg (not_lt.mpr hthr)]
    rw [hab] at he
    simp only [Bool.false_eq_true, reduceIte, List.append_nil] at he
    rcases foldl_emotionChecks_types cfg fn ts ed _ e he with h1 | h | h
    · split_ifs at h1
      · simp only [List.mem_singleton] at h1
        subst h1
        simp
      · exact absurd h1 (by simp)
    · rw [h]; simp
    · rw [h]; simp

/-- Witness for the hypotheses of `c10_never_flags_abnormal_pose`: with
the default threshold `0.5 ≤ 1`, a concrete frame that does emit an
event (a rapid emotion change), whose type is not `abnormal_pose`. -/
theorem c10_never_flags_abnormal_pose_witness :
    (⟨2, 1, "rapid_emotion_change",
      "Mudança emocional rápida para happy"⟩ : AnomalyEvent).type ≠
      "abnormal_pose" := by
  have hmem : (⟨2, 1, "rapid_emotion_change",
      "Mudança emocional rápida para happy"⟩ : AnomalyEvent) ∈
      (analyze_frame_for_anomalies ⟨3, 1/2, 2⟩ 2 1 0 none
        (if (none : Option PoseLandmarks).isSome then 1 else 0)
        [("face", "happy")] ⟨[], [(0, "sad")]⟩).1 := by
    norm_num [analyze_frame_for_anomalies, emotionChecksStep,
      detect_sudden_movement, detect_rapid_emotion_change,
      detect_extreme_emotion_sustained, extreme_emotions, sustainLoop]
    decide
  exact c10_never_flags_abnormal_pose ⟨3, 1/2, 2⟩ 2 1 0 none
    [("face", "happy")] ⟨[], [(0, "sad")]⟩ (by norm_num) _ hmem

end VideoAnalysis
